import Mathlib

/-!
Verification of the tagged-union matcher and container algebra of the
adt-workshop repository: a shallow embedding of `matchTagged`, the
`@swan-io/boxed` containers (`Option`, `Result`, `AsyncData`) as used by the
lessons, the `fromTanstackQuery` boundary adapter, and the `halfIfEven`
pipelines, together with theorems settling the specification's claims.

JavaScript runtime behaviour that the TypeScript source relies on (truthiness
tests, `undefined` property access, the `Number()` builtin) is modelled
explicitly so that the embedding matches what the code does at runtime, not
merely what its types say.
-/

/-- A JavaScript runtime value, covering the shapes the workshop code puts in
`data` / `error` fields: numbers, strings, booleans, objects (kept abstract as
a label), `null` and `undefined`. -/
inductive JSValue : Type where
| num (n : Int)
| str (s : String)
| boolean (b : Bool)
| obj (label : String)
| null
| undefined
deriving DecidableEq

/-- JavaScript truthiness: `0`, the empty string, `false`, `null` and
`undefined` are falsy; every other modelled value is truthy. -/
def jsTruthy : JSValue → Bool
| JSValue.num n => n != 0
| JSValue.str s => s != ""
| JSValue.boolean b => b
| JSValue.obj _ => true
| JSValue.null => false
| JSValue.undefined => false

/-- A TypeScript `T | null | undefined` value, the input type of
`Option.fromNullable`. -/
inductive Nullable (α : Type) : Type where
| value (x : α)
| null
| undefined
deriving DecidableEq

/-- Digit-string to number: `some n` when the characters are one or more
decimal digits, `none` otherwise. Helper for the `Number()` model. -/
def parseDigits (cs : List Char) : Option Nat :=
if cs ≠ [] ∧ cs.all Char.isDigit then
  some (cs.foldl (fun acc c => 10 * acc + (c.toNat - 48)) 0)
else none

/-- Model of the JavaScript `Number()` builtin on the inputs the lessons feed
it: the empty string is `0`, an optionally `-`-signed digit string is that
integer, and everything else is NaN (`none`). Fractional, hexadecimal and
whitespace forms are not used by the code under verification. -/
def jsStringToNumber (s : String) : Option Int :=
match s.data with
| [] => some 0
| '-' :: rest => (parseDigits rest).map (fun n => -(n : Int))
| cs => (parseDigits cs).map (fun n => (n : Int))

namespace Boxed

/-- The `@swan-io/boxed` option container used throughout the lessons:
`Some(value) | None`. -/
inductive Option (α : Type) : Type where
| Some (value : α)
| None
deriving DecidableEq

/-- `option.map(f)`: applies `f` under `Some`, leaves `None` unchanged. -/
def Option.map (o : Option α) (f : α → β) : Option β :=
match o with
| Option.Some x => Option.Some (f x)
| Option.None => Option.None

/-- `option.flatMap(f)`: applies `f` under `Some` and returns its result
directly, leaves `None` unchanged. -/
def Option.flatMap (o : Option α) (f : α → Option β) : Option β :=
match o with
| Option.Some x => f x
| Option.None => Option.None

/-- `Option.fromNullable(x)`: `None` for `null` or `undefined`, `Some x`
otherwise. -/
def Option.fromNullable : Nullable α → Option α
| Nullable.value x => Option.Some x
| Nullable.null => Option.None
| Nullable.undefined => Option.None

/-- Instrumented `Option.map`: the same case split as `Option.map`, returning
additionally how many times `f` was invoked (the call-counting stub the spec
asks tests to use). -/
def Option.mapInstr (o : Option α) (f : α → β) : Option β × Nat :=
match o with
| Option.Some x => (Option.Some (f x), 1)
| Option.None => (Option.None, 0)

/-- Instrumented `Option.flatMap`, counting invocations of `f`. -/
def Option.flatMapInstr (o : Option α) (f : α → Option β) : Option β × Nat :=
match o with
| Option.Some x => (f x, 1)
| Option.None => (Option.None, 0)

/-- The `@swan-io/boxed` result container: `Ok(value) | Error(error)`. -/
inductive Result (α ε : Type) : Type where
| Ok (value : α)
| Error (error : ε)
deriving DecidableEq

/-- `result.map(f)`: transforms the success payload only; an `Error` is
returned unchanged, carrying the very error value that was matched. -/
def Result.map (r : Result α ε) (f : α → β) : Result β ε :=
match r with
| Result.Ok x => Result.Ok (f x)
| Result.Error e => Result.Error e

/-- `result.flatMap(f)`: chains a fallible step; under `Ok` the result of `f`
is returned directly (no extra wrapping), under `Error` the original error is
returned unchanged and `f` is not consulted. -/
def Result.flatMap (r : Result α ε) (f : α → Result β ε) : Result β ε :=
match r with
| Result.Ok x => f x
| Result.Error e => Result.Error e

/-- `result.mapError(f)`: transforms the error payload only. -/
def Result.mapError (r : Result α ε) (f : ε → η) : Result α η :=
match r with
| Result.Ok x => Result.Ok x
| Result.Error e => Result.Error (f e)

/-- `result.match({Ok, Error})` of the boxed library: exhaustive two-branch
case analysis. -/
def Result.matchCases (r : Result α ε) (okH : α → ρ) (errorH : ε → ρ) : ρ :=
match r with
| Result.Ok x => okH x
| Result.Error e => errorH e

/-- Instrumented `Result.map`, counting invocations of `f`. -/
def Result.mapInstr (r : Result α ε) (f : α → β) : Result β ε × Nat :=
match r with
| Result.Ok x => (Result.Ok (f x), 1)
| Result.Error e => (Result.Error e, 0)

/-- Instrumented `Result.flatMap`, counting invocations of `f`. -/
def Result.flatMapInstr (r : Result α ε) (f : α → Result β ε) : Result β ε × Nat :=
match r with
| Result.Ok x => (f x, 1)
| Result.Error e => (Result.Error e, 0)

/-- The `@swan-io/boxed` async-data container:
`NotAsked | Loading | Done(value)`. -/
inductive AsyncData (α : Type) : Type where
| NotAsked
| Loading
| Done (value : α)
deriving DecidableEq

/-- `asyncData.map(f)`: applies `f` only under `Done`; `NotAsked` and
`Loading` pass through. -/
def AsyncData.map (a : AsyncData α) (f : α → β) : AsyncData β :=
match a with
| AsyncData.NotAsked => AsyncData.NotAsked
| AsyncData.Loading => AsyncData.Loading
| AsyncData.Done x => AsyncData.Done (f x)

/-- `asyncData.match({NotAsked, Loading, Done})` of the boxed library. -/
def AsyncData.matchCases (a : AsyncData α) (notAskedH : Unit → ρ)
    (loadingH : Unit → ρ) (doneH : α → ρ) : ρ :=
match a with
| AsyncData.NotAsked => notAskedH ()
| AsyncData.Loading => loadingH ()
| AsyncData.Done x => doneH x

/-- Shape test: is the value `NotAsked`? -/
def AsyncData.isNotAsked : AsyncData (Result α ε) → Bool
| AsyncData.NotAsked => true
| _ => false

/-- Shape test: is the value `Loading`? -/
def AsyncData.isLoading : AsyncData (Result α ε) → Bool
| AsyncData.Loading => true
| _ => false

/-- Shape test: is the value `Done(Ok(_))`? -/
def AsyncData.isDoneOk : AsyncData (Result α ε) → Bool
| AsyncData.Done (Result.Ok _) => true
| _ => false

/-- Shape test: is the value `Done(Error(_))`? -/
def AsyncData.isDoneError : AsyncData (Result α ε) → Bool
| AsyncData.Done (Result.Error _) => true
| _ => false

end Boxed

/-- A tagged value (`type Tagged = { _tag: Tag }` plus variant fields):
`_tag` is the discriminant string and `payload` stands for the variant's
remaining fields. -/
structure Tagged (γ : Type) : Type where
  _tag : String
  payload : γ
deriving DecidableEq

/-- Outcome of a runtime failure inside `matchTagged`.
`typeErrorNotAFunction` is what JavaScript actually throws when
`handlers[key]` is `undefined` and gets called (a generic TypeError that does
not carry the discriminant); `nonExhaustiveMatch` is the failure the spec's
error taxonomy describes, identifying the offending discriminant — no code
path of the source produces it. -/
inductive MatchError : Type where
| typeErrorNotAFunction
| nonExhaustiveMatch (tag : String)
deriving DecidableEq

/-- Does a `MatchError` identify itself as a `NonExhaustiveMatch`? -/
def MatchError.isNonExhaustive : MatchError → Bool
| MatchError.nonExhaustiveMatch _ => true
| MatchError.typeErrorNotAFunction => false

/-- `matchTagged(value, handlers)` from the source:
reads `key = value._tag`, looks `handlers[key]` up and calls it on the whole
value. The handler mapping is a string-keyed association list (a JS object);
when the key is absent, `handlers[key]` is `undefined` and calling it throws
a TypeError, modelled by the `Except.error` branch. -/
def matchTagged (value : Tagged γ) (handlers : List (String × (Tagged γ → ρ))) :
    Except MatchError ρ :=
match handlers.lookup value._tag with
| some h => Except.ok (h value)
| none => Except.error MatchError.typeErrorNotAFunction

/-- Instrumented `matchTagged`: same lookup, additionally returning the list
of discriminants whose handlers were invoked. -/
def matchTaggedInstr (value : Tagged γ)
    (handlers : List (String × (Tagged γ → ρ))) :
    Except MatchError ρ × List String :=
match handlers.lookup value._tag with
| some h => (Except.ok (h value), [value._tag])
| none => (Except.error MatchError.typeErrorNotAFunction, [])

/-- Handler for the demo family's `NetworkError` tag, whose payload is its
message string. -/
def networkHandler : Tagged String → String :=
fun v => "Could not reach server: " ++ v.payload

/-- Handler for the demo family's `ValidationError` tag. -/
def validationHandler : Tagged String → String :=
fun v => "Field is invalid: " ++ v.payload

/-- A complete handler mapping for the two-tag demo family
`NetworkError | ValidationError` of the matcher lesson. -/
def demoHandlers : List (String × (Tagged String → String)) :=
[("NetworkError", networkHandler), ("ValidationError", validationHandler)]

/-- The raw flag product returned by the data-fetching layer:
`{ data: Data | undefined, error: Error | undefined, isLoading: boolean }`.
The `data` and `error` fields hold JavaScript runtime values; absence is the
value `undefined`. -/
structure QueryResult : Type where
  data : JSValue
  error : JSValue
  isLoading : Bool
deriving DecidableEq

/-- `fromTanstackQuery` from the source: sequential truthiness tests on
`data`, then `error`, then `isLoading`, defaulting to `NotAsked`. -/
def fromTanstackQuery (queryResult : QueryResult) :
    Boxed.AsyncData (Boxed.Result JSValue JSValue) :=
if jsTruthy queryResult.data then
  Boxed.AsyncData.Done (Boxed.Result.Ok queryResult.data)
else if jsTruthy queryResult.error then
  Boxed.AsyncData.Done (Boxed.Result.Error queryResult.error)
else if queryResult.isLoading then
  Boxed.AsyncData.Loading
else
  Boxed.AsyncData.NotAsked

/-- `type User = { id: number; name: string }` of the AsyncData lesson. -/
structure User : Type where
  id : Int
  name : String
deriving DecidableEq

/-- `AsyncData.NotAsked<User>()` — the lesson's idle value. -/
def idle : Boxed.AsyncData (Boxed.Result User String) := Boxed.AsyncData.NotAsked

/-- `AsyncData.Loading<User>()` — the lesson's loading value. -/
def loading : Boxed.AsyncData (Boxed.Result User String) := Boxed.AsyncData.Loading

/-- `AsyncData.Done(Result.Ok({ id: 1, name: 'Ada' }))`. -/
def okUser : Boxed.AsyncData (Boxed.Result User String) :=
Boxed.AsyncData.Done (Boxed.Result.Ok (User.mk 1 "Ada"))

/-- `AsyncData.Done(Result.Error('404'))`. -/
def koUser : Boxed.AsyncData (Boxed.Result User String) :=
Boxed.AsyncData.Done (Boxed.Result.Error "404")

/-- `render` from the AsyncData lesson: one outer match with three branches
and a nested match on the inner `Result`, four leaves in total. -/
def render (userQuery : Boxed.AsyncData (Boxed.Result User String)) : String :=
userQuery.matchCases
  (fun _ => "Idle")
  (fun _ => "Loading...")
  (fun userResult =>
    userResult.matchCases
      (fun user => "Name: " ++ user.name)
      (fun error => error))

namespace SolutionTsx

/-- `parseNumber` from the solution files: `Number(s)`, then
`Result.Error('not a number')` when the result is NaN, else `Result.Ok(n)`. -/
def parseNumber (s : String) : Boxed.Result Int String :=
match jsStringToNumber s with
| none => Boxed.Result.Error "not a number"
| some n => Boxed.Result.Ok n

/-- `halfIfEven` of `08.1-solution.tsx`: parse, `flatMap` an evenness check
producing `Error('not even')`, then `map` halving. -/
def halfIfEven (raw : String) : Boxed.Result Int String :=
((parseNumber raw).flatMap
  (fun n => if n % 2 = 0 then Boxed.Result.Ok n else Boxed.Result.Error "not even")).map
  (fun n => n / 2)

end SolutionTsx

namespace SolutionTs

/-- `halfIfEven` of `08.1-solution.ts`: a single `match` on `parseNumber`'s
result whose `Ok` branch returns `Ok(n / 2)` for even `n` and
`Error('Not even')` otherwise, and whose `Error` branch is `Result.Error`. -/
def halfIfEven (raw : String) : Boxed.Result Int String :=
(SolutionTsx.parseNumber raw).matchCases
  (fun n => if n % 2 = 0 then Boxed.Result.Ok (n / 2) else Boxed.Result.Error "Not even")
  (fun e => Boxed.Result.Error e)

end SolutionTs

/-- Exactly how many of the four state shapes a value exhibits. -/
def Boxed.AsyncData.shapeCount (x : Boxed.AsyncData (Boxed.Result α ε)) : Nat :=
(cond x.isNotAsked 1 0) + (cond x.isLoading 1 0) +
  (cond x.isDoneOk 1 0) + (cond x.isDoneError 1 0)

/-- The absent field value `undefined` is falsy. -/
theorem jsTruthy_undefined : jsTruthy JSValue.undefined = false := rfl

/-- C1: Result error propagation identity: for every error `e` and all
functions `f` and `g`, `Error(e).flatMap(f).map(g)` equals `Error(e)` — both
match branches return the matched error value itself, unreconstructed — and
the instrumented variants record zero invocations of `f` and of `g`. -/
theorem error_propagation_identity (α β γ ε : Type) (e : ε)
    (f : α → Boxed.Result β ε) (g : β → γ) :
    ((Boxed.Result.Error e : Boxed.Result α ε).flatMap f).map g
      = Boxed.Result.Error e
    ∧ ((Boxed.Result.Error e : Boxed.Result α ε).flatMapInstr f).2 = 0
    ∧ (((Boxed.Result.Error e : Boxed.Result α ε).flatMap f).mapInstr g).2 = 0 :=
⟨rfl, rfl, rfl⟩

/-- C2: for a tagged value whose discriminant belongs to family `F` and a
handler mapping with exactly one handler per tag of `F`, `matchTagged`
returns the result of the handler found at the discriminant applied to the
value (which carries the payload), and the only handler invoked is the one at
the value's discriminant. -/
theorem matchTagged_complete_dispatch (γ ρ : Type) (F : List String)
    (v : Tagged γ) (handlers : List (String × (Tagged γ → ρ)))
    (h : Tagged γ → ρ)
    (hkeys : handlers.map Prod.fst = F) (hmem : v._tag ∈ F)
    (hlook : handlers.lookup v._tag = some h) :
    matchTagged v handlers = Except.ok (h v)
    ∧ (matchTaggedInstr v handlers).2 = [v._tag]
    ∧ (matchTaggedInstr v handlers).1 = matchTagged v handlers := by
  simp [matchTagged, matchTaggedInstr, hlook]

/-- C2 witness: dispatching the demo NetworkError value through the complete
two-tag demo handler mapping invokes exactly the NetworkError handler. -/
theorem matchTagged_complete_dispatch_witness :
    demoHandlers.map Prod.fst = ["NetworkError", "ValidationError"]
    ∧ (Tagged.mk "NetworkError" "boom" : Tagged String)._tag
        ∈ ["NetworkError", "ValidationError"]
    ∧ demoHandlers.lookup "NetworkError" = some networkHandler
    ∧ matchTagged (Tagged.mk "NetworkError" "boom") demoHandlers
        = Except.ok (networkHandler (Tagged.mk "NetworkError" "boom"))
    ∧ (matchTaggedInstr (Tagged.mk "NetworkError" "boom") demoHandlers).2
        = ["NetworkError"] := by
  have t := matchTagged_complete_dispatch String String
    ["NetworkError", "ValidationError"] (Tagged.mk "NetworkError" "boom")
    demoHandlers networkHandler rfl (by simp) rfl
  exact ⟨rfl, by simp, rfl, t.1, t.2.1⟩

/-- C3 counterexample: on a value whose discriminant `Dog` has no handler,
`matchTagged` throws the generic TypeError that results from calling the
`undefined` property — an error that is not a `NonExhaustiveMatch` and does
not identify the offending discriminant. -/
theorem matchTagged_missing_handler_cex :
    matchTagged (Tagged.mk "Dog" "woof") demoHandlers
      = Except.error MatchError.typeErrorNotAFunction
    ∧ MatchError.typeErrorNotAFunction.isNonExhaustive = false
    ∧ MatchError.typeErrorNotAFunction ≠ MatchError.nonExhaustiveMatch "Dog" :=
⟨rfl, rfl, by decide⟩

/-- C3 amended: when the runtime discriminant is not a key of the handler
mapping, `matchTagged` fails rather than silently returning a success — but
the failure is the generic TypeError from calling `undefined`, not a
`NonExhaustiveMatch`, and it carries no discriminant; no handler is
invoked. -/
theorem matchTagged_missing_handler_fails (γ ρ : Type) (v : Tagged γ)
    (handlers : List (String × (Tagged γ → ρ)))
    (hnone : handlers.lookup v._tag = none) :
    matchTagged v handlers = Except.error MatchError.typeErrorNotAFunction
    ∧ (matchTaggedInstr v handlers).2 = []
    ∧ MatchError.typeErrorNotAFunction.isNonExhaustive = false := by
  simp [matchTagged, matchTaggedInstr, hnone, MatchError.isNonExhaustive]

/-- C3 amended witness: the `Dog` value against the two-tag demo mapping. -/
theorem matchTagged_missing_handler_fails_witness :
    demoHandlers.lookup "Dog" = none
    ∧ matchTagged (Tagged.mk "Dog" "woof") demoHandlers
        = Except.error MatchError.typeErrorNotAFunction
    ∧ (matchTaggedInstr (Tagged.mk "Dog" "woof") demoHandlers).2 = [] := by
  have t := matchTagged_missing_handler_fails String String
    (Tagged.mk "Dog" "woof") demoHandlers rfl
  exact ⟨rfl, t.1, t.2.1⟩

/-- C4: `fromTanstackQuery` is total — every output is one of the four states
— and resolves the eight present/absent flag combinations with precedence
data over error over isLoading over none; presence is the code's truthiness
test, so a present (truthy) `data` wins even when `error` and `isLoading` are
also set. -/
theorem fromTanstackQuery_precedence (d e : JSValue) (l : Bool)
    (q : QueryResult) (hd : jsTruthy d = true) (he : jsTruthy e = true) :
    fromTanstackQuery (QueryResult.mk d e l)
      = Boxed.AsyncData.Done (Boxed.Result.Ok d)
    ∧ fromTanstackQuery (QueryResult.mk d JSValue.undefined l)
      = Boxed.AsyncData.Done (Boxed.Result.Ok d)
    ∧ fromTanstackQuery (QueryResult.mk JSValue.undefined e l)
      = Boxed.AsyncData.Done (Boxed.Result.Error e)
    ∧ fromTanstackQuery (QueryResult.mk JSValue.undefined JSValue.undefined l)
      = (if l then Boxed.AsyncData.Loading else Boxed.AsyncData.NotAsked)
    ∧ ((fromTanstackQuery q).isNotAsked = true
       ∨ (fromTanstackQuery q).isLoading = true
       ∨ (fromTanstackQuery q).isDoneOk = true
       ∨ (fromTanstackQuery q).isDoneError = true) := by
  refine ⟨?_, ?_, ?_, ?_, ?_⟩
  · simp [fromTanstackQuery, hd]
  · simp [fromTanstackQuery, hd]
  · simp [fromTanstackQuery, jsTruthy_undefined, he]
  · simp [fromTanstackQuery, jsTruthy_undefined]
  · rcases q with ⟨qd, qe, ql⟩
    by_cases h1 : jsTruthy qd <;> by_cases h2 : jsTruthy qe <;> cases ql <;>
      simp [fromTanstackQuery, h1, h2, Boxed.AsyncData.isNotAsked,
        Boxed.AsyncData.isLoading, Boxed.AsyncData.isDoneOk,
        Boxed.AsyncData.isDoneError]

/-- C4 witness: a truthy data value, a truthy error value, loading set — the
data wins; without data the error wins; with neither and no loading, the
result is NotAsked. -/
theorem fromTanstackQuery_precedence_witness :
    jsTruthy (JSValue.num 7) = true
    ∧ jsTruthy (JSValue.str "E") = true
    ∧ fromTanstackQuery (QueryResult.mk (JSValue.num 7) (JSValue.str "E") true)
        = Boxed.AsyncData.Done (Boxed.Result.Ok (JSValue.num 7))
    ∧ fromTanstackQuery (QueryResult.mk JSValue.undefined (JSValue.str "E") true)
        = Boxed.AsyncData.Done (Boxed.Result.Error (JSValue.str "E"))
    ∧ ((fromTanstackQuery (QueryResult.mk JSValue.undefined JSValue.undefined false)).isNotAsked = true
       ∨ (fromTanstackQuery (QueryResult.mk JSValue.undefined JSValue.undefined false)).isLoading = true
       ∨ (fromTanstackQuery (QueryResult.mk JSValue.undefined JSValue.undefined false)).isDoneOk = true
       ∨ (fromTanstackQuery (QueryResult.mk JSValue.undefined JSValue.undefined false)).isDoneError = true) := by
  have t := fromTanstackQuery_precedence (JSValue.num 7) (JSValue.str "E") true
    (QueryResult.mk JSValue.undefined JSValue.undefined false) rfl rfl
  exact ⟨rfl, rfl, t.1, t.2.2.1, t.2.2.2.2⟩

/-- C5: every value of `AsyncData (Result α ε)` exhibits exactly one of the
four shapes NotAsked, Loading, Done(Ok), Done(Error) — so the four are
mutually exclusive and no fifth shape exists — each of the four is
constructible, and the lesson's nested `render` match resolves each of its
four leaf cases. -/
theorem asyncData_four_states (α ε : Type) (t : α) (e : ε) :
    (∀ x : Boxed.AsyncData (Boxed.Result α ε), x.shapeCount = 1)
    ∧ (Boxed.AsyncData.NotAsked : Boxed.AsyncData (Boxed.Result α ε)).isNotAsked = true
    ∧ (Boxed.AsyncData.Loading : Boxed.AsyncData (Boxed.Result α ε)).isLoading = true
    ∧ (Boxed.AsyncData.Done (Boxed.Result.Ok t) : Boxed.AsyncData (Boxed.Result α ε)).isDoneOk = true
    ∧ (Boxed.AsyncData.Done (Boxed.Result.Error e) : Boxed.AsyncData (Boxed.Result α ε)).isDoneError = true
    ∧ render idle = "Idle"
    ∧ render loading = "Loading..."
    ∧ render okUser = "Name: Ada"
    ∧ render koUser = "404" := by
  refine ⟨?_, rfl, rfl, rfl, rfl, rfl, rfl, rfl, rfl⟩
  intro x
  cases x with
  | NotAsked => rfl
  | Loading => rfl
  | Done r => cases r <;> rfl

/-- C6: Option short-circuit: `None.map(f)` is `None` with zero invocations
of `f`; `map` applies `f` to the payload exactly once when the receiver is
`Some`; `None.flatMap(g)` is `None` with zero invocations of `g`. -/
theorem option_none_short_circuit (α β : Type) (f : α → β)
    (g : α → Boxed.Option β) (x : α) :
    (Boxed.Option.None : Boxed.Option α).map f = Boxed.Option.None
    ∧ ((Boxed.Option.None : Boxed.Option α).mapInstr f).2 = 0
    ∧ (Boxed.Option.Some x).map f = Boxed.Option.Some (f x)
    ∧ ((Boxed.Option.Some x).mapInstr f).2 = 1
    ∧ (Boxed.Option.None : Boxed.Option α).flatMap g = Boxed.Option.None
    ∧ ((Boxed.Option.None : Boxed.Option α).flatMapInstr g).2 = 0 :=
⟨rfl, rfl, rfl, rfl, rfl, rfl⟩

/-- C7: flattening law: `Ok(x).flatMap(f)` is `f(x)` itself, with no extra
wrapping. -/
theorem ok_flatMap_flattening (α β ε : Type) (x : α)
    (f : α → Boxed.Result β ε) :
    (Boxed.Result.Ok x : Boxed.Result α ε).flatMap f = f x := rfl

/-- C8 counterexample: the match-based `halfIfEven` of `08.1-solution.ts` on
input `7` yields `Error("Not even")` with a capital N, not the
`Error("not even")` the claim states. -/
theorem halfIfEven_ts_message_cex :
    SolutionTs.halfIfEven "7" = Boxed.Result.Error "Not even"
    ∧ SolutionTs.halfIfEven "7" ≠ Boxed.Result.Error "not even" :=
⟨by decide, by decide⟩

/-- C8 amended: the flatMap pipeline `halfIfEven` of `08.1-solution.tsx`
realises the spec's scenario exactly (`Ok(4)`, `Error("not even")`,
`Error("not a number")`); the match-based `halfIfEven` of `08.1-solution.ts`
agrees except that its odd-input message is `"Not even"`. -/
theorem halfIfEven_scenarios :
    SolutionTsx.halfIfEven "8" = Boxed.Result.Ok 4
    ∧ SolutionTsx.halfIfEven "7" = Boxed.Result.Error "not even"
    ∧ SolutionTsx.halfIfEven "x" = Boxed.Result.Error "not a number"
    ∧ SolutionTs.halfIfEven "8" = Boxed.Result.Ok 4
    ∧ SolutionTs.halfIfEven "7" = Boxed.Result.Error "Not even"
    ∧ SolutionTs.halfIfEven "x" = Boxed.Result.Error "not a number" := by
  decide

/-- C9: `fromNullable(x)` is `None` exactly when `x` is `null` or
`undefined` and `Some(x)` otherwise; the spec's two concrete pipelines
evaluate to `None` and to `Some(10)`. -/
theorem fromNullable_spec (α : Type) (y : α) :
    (∀ x : Nullable α,
        Boxed.Option.fromNullable x = Boxed.Option.None
          ↔ (x = Nullable.null ∨ x = Nullable.undefined))
    ∧ Boxed.Option.fromNullable (Nullable.value y) = Boxed.Option.Some y
    ∧ (Boxed.Option.fromNullable (Nullable.null : Nullable Int)).map
        (fun n => n * 2) = Boxed.Option.None
    ∧ (Boxed.Option.fromNullable (Nullable.value (5 : Int))).map
        (fun n => n * 2) = Boxed.Option.Some 10 := by
  refine ⟨?_, rfl, rfl, by decide⟩
  intro x
  cases x <;> simp [Boxed.Option.fromNullable]

/-- C10: `fromTanstackQuery` tests `data` and `error` by truthiness: a
defined but falsy `data` never yields `Done(Ok(_))` — the function falls
through to the error, loading and not-asked branches — and a falsy `error`
behaves exactly as an absent one. -/
theorem fromTanstackQuery_falsy (d e : JSValue) (l : Bool)
    (hdef : d ≠ JSValue.undefined) (hd : jsTruthy d = false) :
    fromTanstackQuery (QueryResult.mk d e l)
      = (if jsTruthy e then Boxed.AsyncData.Done (Boxed.Result.Error e)
         else if l then Boxed.AsyncData.Loading else Boxed.AsyncData.NotAsked)
    ∧ (fromTanstackQuery (QueryResult.mk d e l)).isDoneOk = false
    ∧ (jsTruthy e = false →
        fromTanstackQuery (QueryResult.mk d e l)
          = fromTanstackQuery (QueryResult.mk d JSValue.undefined l)) := by
  refine ⟨?_, ?_, ?_⟩
  · simp [fromTanstackQuery, hd]
  · by_cases he : jsTruthy e <;> cases l <;>
      simp [fromTanstackQuery, hd, he, Boxed.AsyncData.isDoneOk]
  · intro he
    simp [fromTanstackQuery, hd, he, jsTruthy_undefined]

/-- C10 witness: the defined, falsy data value `0` with the falsy error value
`""` and no loading flag gives NotAsked, not `Done(Ok(0))`, and the falsy
error behaves as an absent one. -/
theorem fromTanstackQuery_falsy_witness :
    JSValue.num 0 ≠ JSValue.undefined
    ∧ jsTruthy (JSValue.num 0) = false
    ∧ fromTanstackQuery (QueryResult.mk (JSValue.num 0) (JSValue.str "") false)
        = Boxed.AsyncData.NotAsked
    ∧ (fromTanstackQuery (QueryResult.mk (JSValue.num 0) (JSValue.str "") false)).isDoneOk
        = false
    ∧ fromTanstackQuery (QueryResult.mk (JSValue.num 0) (JSValue.str "") false)
        = fromTanstackQuery (QueryResult.mk (JSValue.num 0) JSValue.undefined false) := by
  have t := fromTanstackQuery_falsy (JSValue.num 0) (JSValue.str "") false
    (by decide) rfl
  exact ⟨by decide, rfl, t.1, t.2.1, t.2.2 rfl⟩
